import Mathlib

/-!
# Spoke profile `uptight/spoke_defines_234x18x20.h` (DT Alpine III)

The header is a table of four preprocessor constants.  It is embedded here as
its text, line by line, together with the part of the C preprocessor that
decides what the text defines: comments are removed, the `#define` directives
that remain are collected, and each replacement text is read as the C constant
it spells (string literal, decimal integer constant, decimal floating
constant).  The four names `ELBOW`, `TRUNK`, `Y_OFFSET` and `GRADE` are then
computed from the text, and the statements about them are statements about
this computation.

A floating constant is kept as the decimal it is written as (digits and a
scale); its conversion to a binary `double` by a compiler is not modelled.
-/

namespace Uptight

/-! ## The source text -/

/-- The sixteen lines of `uptight/spoke_defines_234x18x20.h`, verbatim (the file
does not end in a newline). -/
def headerLines : List String := [
  "/**",
  " * Definition file for this spoke type: DT Alpine III",
  " * ------------------------------------ =============",
  " * ",
  " * Dimension:   Triple butted 2.34 x 1.8 x 2.0",
  " *",
  " * Length:      Approx. 300",
  " *",
  " ***************************************************************************************** */",
  "",
  "",
  "#define  ELBOW              \"2.34\"  // Two of the spoke's critical gauges are displayed for reference",
  "#define  TRUNK              \"1.8\"   // (Threaded end is assumed to be 2.0 mm)",
  "#define  Y_OFFSET           649     // Results from calibration graph fitting formula",
  "//#define  GRADE              118     // (1.18) Using a percentage ratio like this avoids floats",
  "#define  GRADE              0.848  // Reciprocal of angle ratio of fitting x/y graph (i.e. 1/1.18)"
]

/-! ## Comment removal (translation phase 3) -/

/-- Where the scanner stands: in code, inside a string literal, or inside a
`/* ... */` comment. -/
inductive Mode
  | code
  | str
  | block
deriving DecidableEq, Repr

/-- Remove the comments of one line.  A `//` comment runs to the end of the
line, a `/* */` comment may run over the end of the line (the mode returned
says so); each comment is replaced by one space.  Comment openers inside a
string literal are text. -/
def stripComments : Mode → List Char → List Char × Mode
  | .code, [] => ([], .code)
  | .code, '/' :: '/' :: _ => ([' '], .code)
  | .code, '/' :: '*' :: cs =>
    let r := stripComments .block cs
    (' ' :: r.1, r.2)
  | .code, '"' :: cs =>
    let r := stripComments .str cs
    ('"' :: r.1, r.2)
  | .code, c :: cs =>
    let r := stripComments .code cs
    (c :: r.1, r.2)
  | .str, [] => ([], .code)
  | .str, '\\' :: c :: cs =>
    let r := stripComments .str cs
    ('\\' :: c :: r.1, r.2)
  | .str, '"' :: cs =>
    let r := stripComments .code cs
    ('"' :: r.1, r.2)
  | .str, c :: cs =>
    let r := stripComments .str cs
    (c :: r.1, r.2)
  | .block, [] => ([], .block)
  | .block, '*' :: '/' :: cs => stripComments .code cs
  | .block, _ :: cs => stripComments .block cs

/-- Remove the comments of a file, line by line, carrying an open `/* */`
comment into the next line. -/
def stripLines : Mode → List (List Char) → List (List Char)
  | _, [] => []
  | m, l :: ls =>
    let r := stripComments m l
    r.1 :: stripLines r.2 ls

/-- The header with its comments removed. -/
def codeLines : List (List Char) :=
  stripLines .code (headerLines.map String.toList)

/-! ## `#define` directives (translation phase 4) -/

/-- Blank characters inside a line. -/
def isBlank (c : Char) : Bool := c == ' ' || c == '\t'

/-- Characters of an identifier. -/
def isIdentChar (c : Char) : Bool := c.isAlphanum || c == '_'

/-- Drop leading blanks. -/
def skipBlanks (cs : List Char) : List Char := cs.dropWhile isBlank

/-- Drop trailing blanks. -/
def trimRight (cs : List Char) : List Char := (cs.reverse.dropWhile isBlank).reverse

/-- An object-like definition: the name and its replacement text. -/
structure Define where
  name : String
  body : String
deriving DecidableEq, Repr

/-- Read one comment-free line as an object-like `#define`: `#`, the word
`define`, an identifier, blanks, and the replacement text up to the end of
the line without its surrounding blanks.  Any other line gives `none`. -/
def parseDefine (line : List Char) : Option Define :=
  match skipBlanks line with
  | '#' :: rest =>
    let r0 := skipBlanks rest
    let kw := r0.takeWhile isIdentChar
    let r1 := r0.dropWhile isIdentChar
    if kw = "define".toList then
      let r2 := skipBlanks r1
      let name := r2.takeWhile isIdentChar
      let r3 := r2.dropWhile isIdentChar
      match name, r3 with
      | [], _ => none
      | _, '(' :: _ => none
      | _, _ => some ⟨String.mk name, String.mk (trimRight (skipBlanks r3))⟩
    else none
  | _ => none

/-- The definitions in effect after preprocessing the header, in order. -/
def defines : List Define := codeLines.filterMap parseDefine

/-- Every replacement text the header gives to a name, in order. -/
def definitionsOf (n : String) : List String :=
  (defines.filter fun d => d.name == n).map Define.body

/-- The replacement text of a name: its last definition, if it has one. -/
def bodyOf (n : String) : Option String := (definitionsOf n).getLast?

/-- The definitions that a `//` at the start of a line switches off: the line
without that `//` is read as a directive of its own. -/
def disabledDefines : List Define :=
  (headerLines.map String.toList).filterMap fun l =>
    match l with
    | '/' :: '/' :: rest => parseDefine (stripComments .code rest).1
    | _ => none

/-! ## Constants -/

/-- The C constants the header uses. `floating m k` is the decimal floating
constant with digits `m` and `k` digits after the point, `m / 10 ^ k`. -/
inductive Constant
  | text (s : String)
  | integer (n : Nat)
  | floating (m k : Nat)
deriving DecidableEq, Repr

/-- The value of a digit sequence, most significant digit first. -/
def digitsValue (cs : List Char) : Nat :=
  cs.foldl (fun acc c => 10 * acc + (c.toNat - '0'.toNat)) 0

/-- Read `digits . digits` (one side may be empty, not both) as digits and
scale. -/
def readDecimal (cs : List Char) : Option (Nat × Nat) :=
  let ip := cs.takeWhile Char.isDigit
  match cs.dropWhile Char.isDigit with
  | '.' :: fp =>
    if fp.all Char.isDigit && !(ip.isEmpty && fp.isEmpty) then
      some (digitsValue (ip ++ fp), fp.length)
    else none
  | _ => none

/-- Contents of a string literal without escape sequences. -/
def readStringLiteral (cs : List Char) : Option String :=
  match cs with
  | '"' :: rest =>
    match rest.reverse with
    | '"' :: inner =>
      if inner.all (fun c => c != '"' && c != '\\') then some (String.mk inner.reverse)
      else none
    | _ => none
  | _ => none

/-- Read a decimal integer constant: digits, not starting with `0` unless it
is `0` itself (a leading `0` would make it octal). -/
def readInteger (cs : List Char) : Option Nat :=
  match cs with
  | [] => none
  | c :: rest =>
    if (c :: rest).all Char.isDigit && (c != '0' || rest.isEmpty) then
      some (digitsValue (c :: rest))
    else none

/-- Read a replacement text as the constant it spells. -/
def classify (body : String) : Option Constant :=
  match readStringLiteral body.toList with
  | some s => some (.text s)
  | none =>
    match readInteger body.toList with
    | some n => some (.integer n)
    | none =>
      match readDecimal body.toList with
      | some (m, k) => some (.floating m k)
      | none => none

/-- The number a numeric constant stands for. -/
def Constant.value : Constant → Option ℚ
  | .text _ => none
  | .integer n => some n
  | .floating m k => some ((m : ℚ) / 10 ^ k)

/-- The decimal reading of a text such as `2.34`. -/
def decimalReading (s : String) : Option ℚ :=
  (readDecimal s.toList).map fun p => (p.1 : ℚ) / 10 ^ p.2

/-! ## The four constants of the profile -/

/-- `ELBOW`, as the header defines it. -/
def ELBOW : Option Constant := (bodyOf "ELBOW").bind classify

/-- `TRUNK`, as the header defines it. -/
def TRUNK : Option Constant := (bodyOf "TRUNK").bind classify

/-- `Y_OFFSET`, as the header defines it. -/
def Y_OFFSET : Option Constant := (bodyOf "Y_OFFSET").bind classify

/-- `GRADE`, as the header defines it. -/
def GRADE : Option Constant := (bodyOf "GRADE").bind classify

/-- The disabled form of `GRADE`: what the switched-off definition spells. -/
def disabledGRADE : Option Constant :=
  ((disabledDefines.filter fun d => d.name == "GRADE").map Define.body).getLast?.bind classify

/-! ## The documented dimension -/

/-- Split a line into its words (maximal runs of non-blank characters). -/
def splitWords (cs : List Char) : List (List Char) :=
  (cs.foldr
    (fun c acc =>
      if isBlank c then [] :: acc
      else match acc with
        | [] => [[c]]
        | w :: ws => (c :: w) :: ws)
    [[]]).filter fun w => !w.isEmpty

/-- The gauges the header comment documents: the words of the `Dimension:`
line that read as decimals, in order. -/
def documentedGauges : List String :=
  (headerLines.map fun l => splitWords l.toList).flatMap fun ws =>
    if ws.contains "Dimension:".toList then
      (ws.filter fun w => (readDecimal w).isSome).map String.mk
    else []

/-! ## What the header defines -/

/-- A text whose digits and scale are known has the decimal reading they give. -/
theorem decimalReading_of_readDecimal (s : String) (m k : Nat)
    (h : readDecimal s.toList = some (m, k)) :
    decimalReading s = some ((m : ℚ) / 10 ^ k) := by
  unfold decimalReading
  rw [h]
  rfl

/-- Preprocessing the header leaves four definitions, in source order. -/
theorem defines_eq :
    defines = [⟨"ELBOW", "\"2.34\""⟩, ⟨"TRUNK", "\"1.8\""⟩, ⟨"Y_OFFSET", "649"⟩,
      ⟨"GRADE", "0.848"⟩] := by
  decide

/-- The constant `GRADE` spells: digits 848, three of them after the point. -/
theorem GRADE_constant : GRADE = some (.floating 848 3) := by
  decide

/-- The value of `GRADE` as a rational number. -/
theorem GRADE_value : GRADE.bind Constant.value = some (848 / 1000 : ℚ) := by
  rw [GRADE_constant]
  simp only [Option.some_bind, Constant.value]
  norm_num

/-- The switched-off definition of `GRADE` spells the integer 118. -/
theorem disabledGRADE_value : disabledGRADE.bind Constant.value = some (118 : ℚ) := by
  have h : disabledGRADE = some (.integer 118) := by decide
  rw [h]
  simp only [Option.some_bind, Constant.value]
  norm_num

/-- No integer equals 848/1000. -/
theorem not_integer_848_1000 : ¬ ∃ z : ℤ, (z : ℚ) = 848 / 1000 := by
  rintro ⟨z, hz⟩
  have h : (1000 : ℚ) * z = 848 := by rw [hz]; norm_num
  have h2 : (1000 : ℤ) * z = 848 := by exact_mod_cast h
  omega

/-! ## The claims -/

/-- C1: the calibration grade is the decimal 0.848. The header defines `GRADE`
as a decimal floating constant whose digits are 848 with three of them after
the point; read as an exact rational it equals 848/1000, so it lies within
10^-9 of 0.848. -/
theorem GRADE_is_0_848 :
    GRADE = some (.floating 848 3) ∧
    ∃ g : ℚ, GRADE.bind Constant.value = some g ∧ g = 848 / 1000 ∧
      |g - 848 / 1000| < 1 / 10 ^ 9 := by
  refine ⟨GRADE_constant, 848 / 1000, GRADE_value, rfl, ?_⟩
  norm_num

/-- C2: the calibration offset is the integer 649. The replacement text of
`Y_OFFSET` is `649`, it is a decimal integer constant with value 649, and it is
neither a string literal nor a floating constant. -/
theorem Y_OFFSET_is_649 :
    definitionsOf "Y_OFFSET" = ["649"] ∧
    Y_OFFSET = some (.integer 649) ∧
    Y_OFFSET.bind Constant.value = some (649 : ℚ) ∧
    (¬ ∃ s, Y_OFFSET = some (.text s)) ∧
    (¬ ∃ m k, Y_OFFSET = some (.floating m k)) := by
  have h : Y_OFFSET = some (.integer 649) := by decide
  refine ⟨by decide, h, ?_, ?_, ?_⟩
  · rw [h]
    simp only [Option.some_bind, Constant.value]
    norm_num
  · rintro ⟨s, hs⟩
    rw [h] at hs
    cases hs
  · rintro ⟨m, k, hmk⟩
    rw [h] at hmk
    cases hmk

/-- C3: the elbow gauge is kept as text and is exactly the four characters
`2.34`. The header defines `ELBOW` as a string literal with these contents, and
their decimal reading is exactly 234/100. -/
theorem ELBOW_is_text_2_34 :
    definitionsOf "ELBOW" = ["\"2.34\""] ∧
    ∃ s : String, ELBOW = some (.text s) ∧ s = "2.34" ∧ s.toList = ['2', '.', '3', '4'] ∧
      s.length = 4 ∧ decimalReading s = some (234 / 100 : ℚ) := by
  refine ⟨by decide, "2.34", by decide, rfl, by decide, by decide, ?_⟩
  rw [decimalReading_of_readDecimal "2.34" 234 2 (by decide)]
  norm_num

/-- C4: the trunk gauge is kept as text and is exactly the three characters
`1.8`. The header defines `TRUNK` as a string literal with these contents (not
`1.80`, and neither an integer nor a floating constant), and their decimal
reading is exactly 18/10. -/
theorem TRUNK_is_text_1_8 :
    definitionsOf "TRUNK" = ["\"1.8\""] ∧
    (¬ ∃ n, TRUNK = some (.integer n)) ∧
    (¬ ∃ m k, TRUNK = some (.floating m k)) ∧
    ∃ s : String, TRUNK = some (.text s) ∧ s = "1.8" ∧ s.toList = ['1', '.', '8'] ∧
      s.length = 3 ∧ s ≠ "1.80" ∧ decimalReading s = some (18 / 10 : ℚ) := by
  have h : TRUNK = some (.text "1.8") := by decide
  refine ⟨by decide, ?_, ?_, "1.8", h, rfl, by decide, by decide, by decide, ?_⟩
  · rintro ⟨n, hn⟩
    rw [h] at hn
    cases hn
  · rintro ⟨m, k, hmk⟩
    rw [h] at hmk
    cases hmk
  · rw [decimalReading_of_readDecimal "1.8" 18 1 (by decide)]
    norm_num

/-- C5: the disabled percentage form is not active. The header text holds a
switched-off definition `GRADE 118`, but after preprocessing `GRADE` has exactly
one definition, `0.848`; no definition in effect gives it the text `118`, the
constant is not an integer constant, and its value is neither 118 nor any other
integer. -/
theorem GRADE_percentage_form_inactive :
    disabledDefines = [⟨"GRADE", "118"⟩] ∧
    definitionsOf "GRADE" = ["0.848"] ∧
    (⟨"GRADE", "118"⟩ : Define) ∉ defines ∧
    GRADE ≠ some (.integer 118) ∧
    (¬ ∃ n, GRADE = some (.integer n)) ∧
    ∃ g : ℚ, GRADE.bind Constant.value = some g ∧ g ≠ 118 ∧ ¬ ∃ z : ℤ, (z : ℚ) = g := by
  refine ⟨by decide, by decide, by decide, by decide, ?_, 848 / 1000, GRADE_value, ?_,
    not_integer_848_1000⟩
  · rintro ⟨n, hn⟩
    rw [GRADE_constant] at hn
    cases hn
  · norm_num

/-- C6, as stated, fails: with `g` the value of `GRADE` and `p` the percentage
118 of the switched-off definition, `g` is not within 1/2000 of `100 / p`, so
0.848 is not 1/1.18 rounded to three decimals (that is 0.847). -/
theorem GRADE_not_within_half_thousandth_of_reciprocal :
    ¬ ∃ g p : ℚ, GRADE.bind Constant.value = some g ∧
      disabledGRADE.bind Constant.value = some p ∧ |g - 100 / p| ≤ 1 / 2000 := by
  rintro ⟨g, p, hg, hp, h⟩
  rw [GRADE_value] at hg
  rw [disabledGRADE_value] at hp
  cases hg
  cases hp
  norm_num [abs_le] at h

/-- C6, amended: `GRADE` is the reciprocal of the angle ratio 1.18 to within one
unit of its third decimal place, and 1.18 is the reciprocal of `GRADE` to the two
decimals the ratio is written with. With `g` the value of `GRADE` and `p` the
percentage 118 of the switched-off definition: `|g - 100 / p| < 1/1000` and
`|1 / g - p / 100| ≤ 1/200`. -/
theorem GRADE_within_thousandth_of_reciprocal :
    ∃ g p : ℚ, GRADE.bind Constant.value = some g ∧
      disabledGRADE.bind Constant.value = some p ∧ p = 118 ∧
      |g - 100 / p| < 1 / 1000 ∧ |1 / g - p / 100| ≤ 1 / 200 := by
  refine ⟨848 / 1000, 118, GRADE_value, disabledGRADE_value, rfl, ?_, ?_⟩
  · norm_num [abs_lt]
  · norm_num [abs_le]

/-- C7: the stored gauges agree with the documented dimension 2.34 x 1.8 x 2.0.
The `Dimension:` line of the header comment names three gauges; the text of
`ELBOW` is the first, the text of `TRUNK` is the second, the third is the
threaded-end gauge `2.0`, and their decimal readings satisfy
trunk < threaded end < elbow. -/
theorem gauges_agree_with_documented_dimension :
    ∃ e t th : String, documentedGauges = [e, t, th] ∧
      ELBOW = some (.text e) ∧ TRUNK = some (.text t) ∧ th = "2.0" ∧
      ∃ re rt rth : ℚ, decimalReading e = some re ∧ decimalReading t = some rt ∧
        decimalReading th = some rth ∧ re = 234 / 100 ∧ rt = 18 / 10 ∧ rth = 2 ∧
        rt < rth ∧ rth < re := by
  refine ⟨"2.34", "1.8", "2.0", by decide, by decide, by decide, rfl,
    234 / 100, 18 / 10, 2, ?_, ?_, ?_, rfl, rfl, rfl, ?_, ?_⟩
  · rw [decimalReading_of_readDecimal "2.34" 234 2 (by decide)]
    norm_num
  · rw [decimalReading_of_readDecimal "1.8" 18 1 (by decide)]
    norm_num
  · rw [decimalReading_of_readDecimal "2.0" 20 1 (by decide)]
    norm_num
  · norm_num
  · norm_num

end Uptight
